import Mathlib

/-!
Formal model of the Tempus absence-management core (vacaciones / bajas):
the data model (`models.py`), the calendar and overlap helpers (`utils.py`)
and the request-lifecycle routes (`routes/ausencias.py`), embedded as pure
state-passing functions over an explicit relational store.
-/

namespace Tempus

/-! ### Fechas

Dates are modelled as proleptic-Gregorian ordinals, exactly the integers
returned by Python `date.toordinal()`: ordinal 1 is Monday, January 1 of
year 1.  January 1 2023 (a Sunday) is ordinal 738521. -/

abbrev Fecha := Nat

/-- Python `date.weekday()`: 0 = Monday, ..., 5 = Saturday, 6 = Sunday. -/
def weekday (d : Fecha) : Nat := (d - 1) % 7

/-- `utils.es_festivo`: a date is non-working when it falls on a weekend
(weekday 5 or 6) or is listed in the `festivos` table. -/
def es_festivo (festivos : List Fecha) (fecha : Fecha) : Bool :=
  decide (weekday fecha ≥ 5) || decide (fecha ∈ festivos)

/-- `utils.calcular_dias_habiles`: loops day by day from `fecha_inicio`
for `(fecha_fin - fecha_inicio).days + 1` iterations, counting the days
that are not `es_festivo`.  (When `fecha_fin < fecha_inicio` the Python
loop body runs zero times, matching truncated subtraction here.) -/
def calcular_dias_habiles (festivos : List Fecha) (fecha_inicio fecha_fin : Fecha) : Nat :=
  (List.range' fecha_inicio (fecha_fin + 1 - fecha_inicio)).countP
    (fun fecha_actual => ! es_festivo festivos fecha_actual)

/-! ### Modelo de datos (models.py) -/

/-- Row of `tipos_ausencia`. -/
structure TipoAusencia where
  id : Nat
  nombre : String
  max_dias : Nat
  tipo_dias : String              -- "naturales" o "habiles"
  requiere_justificante : Bool
  descuenta_vacaciones : Bool
deriving DecidableEq, Repr

/-- Row of `usuarios` (authentication fields omitted: they play no role in
the lifecycle engine). -/
structure Usuario where
  id : Nat
  nombre : String
  rol : String                    -- "empleado", "aprobador" o "admin"
  dias_vacaciones : Int
deriving DecidableEq, Repr

/-- Row of `solicitudes_vacaciones`. -/
structure SolicitudVacaciones where
  id : Nat
  grupo_id : Nat
  version : Nat
  es_actual : Bool
  usuario_id : Nat
  fecha_inicio : Fecha
  fecha_fin : Fecha
  dias_solicitados : Nat
  motivo : Option String
  estado : String                 -- "pendiente", "aprobada" o "rechazada"
  fecha_solicitud : Nat
  fecha_respuesta : Option Nat
  aprobador_id : Option Nat
  comentarios : Option String
deriving DecidableEq, Repr

/-- Row of `solicitudes_bajas`. -/
structure SolicitudBaja where
  id : Nat
  grupo_id : Nat
  version : Nat
  es_actual : Bool
  usuario_id : Nat
  tipo_ausencia_id : Option Nat
  fecha_inicio : Fecha
  fecha_fin : Fecha
  dias_solicitados : Nat
  motivo : String
  estado : String
  fecha_solicitud : Nat
  fecha_respuesta : Option Nat
  aprobador_id : Option Nat
  comentarios : Option String
deriving DecidableEq, Repr

/-- Row of `aprobadores`: `aprobador_id` may act on requests of `usuario_id`. -/
structure Aprobador where
  usuario_id : Nat
  aprobador_id : Nat
deriving DecidableEq, Repr

/-- The relational store.  `next_id` models the autoincrement primary keys
and `next_grupo` models the freshness of `uuid.uuid4()` group identifiers
(each generated value is new, never equal to one already stored). -/
structure DB where
  usuarios : List Usuario
  vacaciones : List SolicitudVacaciones
  bajas : List SolicitudBaja
  tipos : List TipoAusencia
  festivos : List Fecha
  aprobadores : List Aprobador
  next_id : Nat
  next_grupo : Nat
deriving DecidableEq, Repr

/-- `Usuario.dias_vacaciones_disponibles`: the annual allotment minus the
days of the approved, current vacation requests of this user. -/
def dias_vacaciones_disponibles (db : DB) (u : Usuario) : Int :=
  u.dias_vacaciones -
    ((db.vacaciones.filter
        (fun s => s.usuario_id == u.id && s.estado == "aprobada" && s.es_actual)).map
      (fun s => (s.dias_solicitados : Int))).sum

/-- Python truthiness of the optional `excluir_solicitud_id` argument. -/
def truthy : Option Nat → Bool
  | none => false
  | some n => n != 0

/-- `utils.verificar_solapamiento`: conflict when some current request of
the user, pending or approved, of either table, overlaps the given range
(`existing.start <= end` and `existing.end >= start`).  Vacation rows are
checked first, then baja rows; the optional exclusion applies only to the
table named by `tipo`. -/
def verificar_solapamiento (db : DB) (usuario_id : Nat)
    (fecha_inicio fecha_fin : Fecha) (excluir_solicitud_id : Option Nat)
    (tipo : String) : Bool × Option String :=
  let query_vac := db.vacaciones.filter fun s =>
    s.usuario_id == usuario_id && s.es_actual &&
    (s.estado == "pendiente" || s.estado == "aprobada") &&
    decide (s.fecha_inicio ≤ fecha_fin) && decide (s.fecha_fin ≥ fecha_inicio)
  let query_vac := if tipo == "vacaciones" && truthy excluir_solicitud_id then
      query_vac.filter (fun s => s.id != excluir_solicitud_id.getD 0)
    else query_vac
  if query_vac.length > 0 then
    (true, some "Ya tienes vacaciones solicitadas en estas fechas.")
  else
    let query_baja := db.bajas.filter fun s =>
      s.usuario_id == usuario_id && s.es_actual &&
      (s.estado == "pendiente" || s.estado == "aprobada") &&
      decide (s.fecha_inicio ≤ fecha_fin) && decide (s.fecha_fin ≥ fecha_inicio)
    let query_baja := if tipo == "baja" && truthy excluir_solicitud_id then
        query_baja.filter (fun s => s.id != excluir_solicitud_id.getD 0)
      else query_baja
    if query_baja.length > 0 then
      (true, some "Ya tienes una baja registrada en estas fechas.")
    else
      (false, none)

/-! ### Rutas del ciclo de vida (routes/ausencias.py)

Each route is embedded as a pure function receiving the store, the
authenticated `current_user`, the parsed form/path parameters and the
current time, and returning a typed outcome together with the new store.
The outcome constructors correspond one-to-one to the distinct
flash-and-redirect exits of the Python handler. -/

/-- Outcomes of `solicitar_vacaciones`. -/
inductive ResultadoVac where
  | usuario_invalido
  | rango_invalido
  | solapamiento (mensaje : String)
  | sin_dias_laborables
  | saldo_insuficiente
  | exito
deriving DecidableEq, Repr

/-- Outcomes of `solicitar_baja`. -/
inductive ResultadoBaja where
  | usuario_invalido
  | rango_invalido
  | solapamiento (mensaje : String)
  | tipo_invalido
  | exito
deriving DecidableEq, Repr

/-- Outcomes of `cancelar_vacaciones`. -/
inductive ResultadoCancelar where
  | no_encontrada
  | sin_permiso
  | solo_pendientes
  | cancelada
deriving DecidableEq, Repr

/-- Outcomes of `responder_solicitud` / `responder_baja`. -/
inductive ResultadoResponder where
  | sin_rol
  | no_encontrada
  | sin_permiso
  | accion_no_reconocida
  | respondida
deriving DecidableEq, Repr

/-- Observable interactions performed by a route while handling a request:
user-facing flash messages, and the calls into the external collaborators
`google_calendar.crear_evento_vacaciones` / `crear_evento_baja` and
`email_service`, had the route invoked them. -/
inductive Efecto where
  | flash (mensaje categoria : String)
  | crearEventoCalendario (solicitud_id : Nat)
  | enviarEmail (destinatario : String)
deriving DecidableEq, Repr

/-- Is this effect a call into the external-calendar collaborator? -/
def es_evento_calendario : Efecto → Bool
  | Efecto.crearEventoCalendario _ => true
  | _ => false

/-- Target-user resolution shared by both submit routes: an administrator
who posted a `usuario_id` selects that user (`None` when the id is
unknown); anyone else targets themselves. -/
def resolver_target (db : DB) (cu : Usuario) (sel : Option Nat) : Option Usuario :=
  if cu.rol == "admin" && sel.isSome then
    db.usuarios.find? (fun u => u.id == sel.getD 0)
  else
    some cu

/-- `routes/ausencias.solicitar_vacaciones` (POST branch, after date
parsing): validates range, overlap, working-day count and balance, then
persists a fresh version-1 current row. -/
def solicitar_vacaciones (db : DB) (cu : Usuario) (sel : Option Nat)
    (fecha_inicio fecha_fin : Fecha) (motivo : Option String) (ahora : Nat) :
    ResultadoVac × DB :=
  match resolver_target db cu sel with
  | none => (ResultadoVac.usuario_invalido, db)
  | some target =>
    if fecha_fin < fecha_inicio then (ResultadoVac.rango_invalido, db)
    else
      let vs := verificar_solapamiento db target.id fecha_inicio fecha_fin none "vacaciones"
      if vs.1 then (ResultadoVac.solapamiento (vs.2.getD ""), db)
      else
        let dias_calculados := calcular_dias_habiles db.festivos fecha_inicio fecha_fin
        if dias_calculados ≤ 0 then (ResultadoVac.sin_dias_laborables, db)
        else
          let saldo_actual := dias_vacaciones_disponibles db target
          if (dias_calculados : Int) > saldo_actual then (ResultadoVac.saldo_insuficiente, db)
          else
            let es_admin_gestion := cu.rol == "admin" && target.id != cu.id
            let solicitud : SolicitudVacaciones :=
              { id := db.next_id
                grupo_id := db.next_grupo
                version := 1
                es_actual := true
                usuario_id := target.id
                fecha_inicio := fecha_inicio
                fecha_fin := fecha_fin
                dias_solicitados := dias_calculados
                motivo := motivo
                estado := if es_admin_gestion then "aprobada" else "pendiente"
                fecha_solicitud := ahora
                fecha_respuesta := if es_admin_gestion then some ahora else none
                aprobador_id := if es_admin_gestion then some cu.id else none
                comentarios := none }
            (ResultadoVac.exito,
              { db with vacaciones := db.vacaciones ++ [solicitud],
                        next_id := db.next_id + 1,
                        next_grupo := db.next_grupo + 1 })

/-- `routes/ausencias.solicitar_baja` (POST branch, after date parsing):
validates range, overlap and absence type, computes the day count per the
type policy (no zero-day or balance check) and persists the row. -/
def solicitar_baja (db : DB) (cu : Usuario) (sel : Option Nat) (tipo_id : Nat)
    (fecha_inicio fecha_fin : Fecha) (motivo : String) (ahora : Nat) :
    ResultadoBaja × DB :=
  match resolver_target db cu sel with
  | none => (ResultadoBaja.usuario_invalido, db)
  | some target =>
    if fecha_fin < fecha_inicio then (ResultadoBaja.rango_invalido, db)
    else
      let vs := verificar_solapamiento db target.id fecha_inicio fecha_fin none "baja"
      if vs.1 then (ResultadoBaja.solapamiento (vs.2.getD ""), db)
      else
        match db.tipos.find? (fun t => t.id == tipo_id) with
        | none => (ResultadoBaja.tipo_invalido, db)
        | some tipo_obj =>
          let dias := if tipo_obj.tipo_dias == "naturales" then
              (fecha_fin - fecha_inicio) + 1
            else
              calcular_dias_habiles db.festivos fecha_inicio fecha_fin
          let es_admin_gestion := cu.rol == "admin" && target.id != cu.id
          let solicitud : SolicitudBaja :=
            { id := db.next_id
              grupo_id := db.next_grupo
              version := 1
              es_actual := true
              usuario_id := target.id
              tipo_ausencia_id := some tipo_id
              fecha_inicio := fecha_inicio
              fecha_fin := fecha_fin
              dias_solicitados := dias
              motivo := motivo
              estado := if es_admin_gestion then "aprobada" else "pendiente"
              fecha_solicitud := ahora
              fecha_respuesta := if es_admin_gestion then some ahora else none
              aprobador_id := if es_admin_gestion then some cu.id else none
              comentarios := none }
          (ResultadoBaja.exito,
            { db with bajas := db.bajas ++ [solicitud],
                      next_id := db.next_id + 1,
                      next_grupo := db.next_grupo + 1 })

/-- In-place update applied by `cancelar_vacaciones` to the selected row. -/
def marcar_cancelada (cu : Usuario) (ahora : Nat) (s : SolicitudVacaciones) :
    SolicitudVacaciones :=
  { s with estado := "rechazada",
           comentarios := some ("Cancelada por " ++ cu.nombre),
           fecha_respuesta := some ahora }

/-- `routes/ausencias.cancelar_vacaciones`: owner-or-admin may cancel, and
only pending requests unless the actor is an admin; the row is mutated in
place to estado rechazada. -/
def cancelar_vacaciones (db : DB) (cu : Usuario) (id : Nat) (ahora : Nat) :
    ResultadoCancelar × DB :=
  match db.vacaciones.find? (fun s => s.id == id) with
  | none => (ResultadoCancelar.no_encontrada, db)
  | some solicitud =>
    let es_admin := cu.rol == "admin"
    if solicitud.usuario_id != cu.id && ! es_admin then
      (ResultadoCancelar.sin_permiso, db)
    else if solicitud.estado != "pendiente" && ! es_admin then
      (ResultadoCancelar.solo_pendientes, db)
    else
      (ResultadoCancelar.cancelada,
        { db with vacaciones := db.vacaciones.map (fun s =>
            if s.id == id then marcar_cancelada cu ahora s else s) })

/-- In-place update applied by the respond routes to the selected row. -/
def marcar_respondida (nuevo_estado : String) (cu : Usuario) (ahora : Nat)
    (s : SolicitudVacaciones) : SolicitudVacaciones :=
  { s with estado := nuevo_estado,
           aprobador_id := some cu.id,
           fecha_respuesta := some ahora }

/-- In-place update applied by `responder_baja` to the selected row. -/
def marcar_baja_respondida (nuevo_estado : String) (cu : Usuario) (ahora : Nat)
    (s : SolicitudBaja) : SolicitudBaja :=
  { s with estado := nuevo_estado,
           aprobador_id := some cu.id,
           fecha_respuesta := some ahora }

/-- `routes/ausencias.responder_solicitud`: an aprobador or admin, managing
the owner, applies accion aprobar or rechazar to the request row.  The
route performs no check of the previous `estado` or of `es_actual`, and
performs no external-calendar call (its only interactions are the flash
messages recorded in the effect trace). -/
def responder_solicitud (db : DB) (cu : Usuario) (id : Nat) (accion : String)
    (ahora : Nat) : ResultadoResponder × DB × List Efecto :=
  if ! (cu.rol == "aprobador" || cu.rol == "admin") then
    (ResultadoResponder.sin_rol, db, [Efecto.flash "No tienes permisos." "danger"])
  else
    match db.vacaciones.find? (fun s => s.id == id) with
    | none => (ResultadoResponder.no_encontrada, db, [])
    | some solicitud =>
      let es_mi_empleado := db.aprobadores.any (fun r =>
        r.aprobador_id == cu.id && r.usuario_id == solicitud.usuario_id)
      if ! es_mi_empleado && cu.rol != "admin" then
        (ResultadoResponder.sin_permiso, db,
          [Efecto.flash "No tienes permiso para gestionar solicitudes de este usuario." "danger"])
      else if accion == "aprobar" then
        (ResultadoResponder.respondida,
          { db with vacaciones := db.vacaciones.map (fun s =>
              if s.id == id then marcar_respondida "aprobada" cu ahora s else s) },
          [Efecto.flash "Solicitud de vacaciones aprobada." "success"])
      else if accion == "rechazar" then
        (ResultadoResponder.respondida,
          { db with vacaciones := db.vacaciones.map (fun s =>
              if s.id == id then marcar_respondida "rechazada" cu ahora s else s) },
          [Efecto.flash "Solicitud de vacaciones rechazada." "info"])
      else
        (ResultadoResponder.accion_no_reconocida, db,
          [Efecto.flash "Acción no reconocida." "warning"])

/-- `routes/ausencias.responder_baja`: identical logic over the baja table. -/
def responder_baja (db : DB) (cu : Usuario) (id : Nat) (accion : String)
    (ahora : Nat) : ResultadoResponder × DB × List Efecto :=
  if ! (cu.rol == "aprobador" || cu.rol == "admin") then
    (ResultadoResponder.sin_rol, db, [Efecto.flash "No tienes permisos." "danger"])
  else
    match db.bajas.find? (fun s => s.id == id) with
    | none => (ResultadoResponder.no_encontrada, db, [])
    | some solicitud =>
      let es_mi_empleado := db.aprobadores.any (fun r =>
        r.aprobador_id == cu.id && r.usuario_id == solicitud.usuario_id)
      if ! es_mi_empleado && cu.rol != "admin" then
        (ResultadoResponder.sin_permiso, db,
          [Efecto.flash "No tienes permiso para gestionar solicitudes de este usuario." "danger"])
      else if accion == "aprobar" then
        (ResultadoResponder.respondida,
          { db with bajas := db.bajas.map (fun s =>
              if s.id == id then marcar_baja_respondida "aprobada" cu ahora s else s) },
          [Efecto.flash "Baja aprobada." "success"])
      else if accion == "rechazar" then
        (ResultadoResponder.respondida,
          { db with bajas := db.bajas.map (fun s =>
              if s.id == id then marcar_baja_respondida "rechazada" cu ahora s else s) },
          [Efecto.flash "Baja rechazada." "info"])
      else
        (ResultadoResponder.accion_no_reconocida, db,
          [Efecto.flash "Acción no reconocida." "warning"])

/-! ### Secuencias de operaciones del ciclo de vida -/

/-- One lifecycle operation, as invocable through the web layer. -/
inductive Op where
  | solicitarVac (cu : Usuario) (sel : Option Nat) (fecha_inicio fecha_fin : Fecha)
      (motivo : Option String) (ahora : Nat)
  | solicitarBaja (cu : Usuario) (sel : Option Nat) (tipo_id : Nat)
      (fecha_inicio fecha_fin : Fecha) (motivo : String) (ahora : Nat)
  | cancelarVac (cu : Usuario) (id : Nat) (ahora : Nat)
  | responderVac (cu : Usuario) (id : Nat) (accion : String) (ahora : Nat)
  | responderBaja (cu : Usuario) (id : Nat) (accion : String) (ahora : Nat)

/-- Effect of one lifecycle operation on the store. -/
def aplicar (db : DB) : Op → DB
  | Op.solicitarVac cu sel fi ff motivo ahora => (solicitar_vacaciones db cu sel fi ff motivo ahora).2
  | Op.solicitarBaja cu sel tipo fi ff motivo ahora => (solicitar_baja db cu sel tipo fi ff motivo ahora).2
  | Op.cancelarVac cu id ahora => (cancelar_vacaciones db cu id ahora).2
  | Op.responderVac cu id accion ahora => (responder_solicitud db cu id accion ahora).2.1
  | Op.responderBaja cu id accion ahora => (responder_baja db cu id accion ahora).2.1

/-- The empty store. -/
def db_vacia : DB :=
  { usuarios := [], vacaciones := [], bajas := [], tipos := [], festivos := [],
    aprobadores := [], next_id := 1, next_grupo := 1 }

/-! ### Teoremas -/

/-- The working-day loop counts exactly the days of the inclusive range
that are neither weekend days nor holidays. -/
theorem calcular_dias_habiles_eq_card (festivos : List Fecha) (s e : Fecha) :
    calcular_dias_habiles festivos s e
      = ((Finset.Icc s e).filter (fun d => weekday d < 5 ∧ d ∉ festivos)).card := by
  rw [Nat.Icc_eq_range', Finset.card_def, Finset.filter_val]
  rw [show ({ val := ↑(List.range' s (e + 1 - s)), nodup := List.nodup_range' _ _ } :
        Finset Fecha).val = ↑(List.range' s (e + 1 - s)) from rfl]
  rw [Multiset.filter_coe, Multiset.coe_card]
  rw [calcular_dias_habiles, List.countP_eq_length_filter]
  refine congrArg List.length (List.filter_congr fun d _ => ?_)
  by_cases h1 : weekday d ≥ 5 <;> by_cases h2 : d ∈ festivos <;>
    simp [es_festivo, h1, h2, Nat.lt_of_not_le, Nat.not_le]

/-- C5: for start ≤ end, the WorkingDays count equals the number of days in
the inclusive range that are neither designated weekend days nor holidays;
the CalendarDays count (used by solicitar_baja for naturales types) equals
(end - start) + 1, the size of the full inclusive range; and the range
Jan 1 - Jan 31 2023 (ordinals 738521-738551) with no holidays yields 22
working days. -/
theorem politicas_de_computo_de_dias (festivos : List Fecha) (s e : Fecha) (h : s ≤ e) :
    calcular_dias_habiles festivos s e
        = ((Finset.Icc s e).filter (fun d => weekday d < 5 ∧ d ∉ festivos)).card
      ∧ (e - s) + 1 = (Finset.Icc s e).card
      ∧ calcular_dias_habiles [] 738521 738551 = 22 := by
  refine ⟨calcular_dias_habiles_eq_card festivos s e, ?_, by decide⟩
  rw [Nat.card_Icc]
  exact (Nat.sub_add_comm h).symm

/-- Closed instance of the day-count theorem at the Jan 2023 range. -/
theorem politicas_de_computo_de_dias_witness :
    (738521 : Fecha) ≤ 738551
      ∧ (calcular_dias_habiles [] 738521 738551
            = ((Finset.Icc (738521 : Fecha) 738551).filter
                (fun d => weekday d < 5 ∧ d ∉ ([] : List Fecha))).card
          ∧ (738551 - 738521) + 1 = (Finset.Icc (738521 : Fecha) 738551).card
          ∧ calcular_dias_habiles [] 738521 738551 = 22) :=
  ⟨by decide, politicas_de_computo_de_dias [] 738521 738551 (by decide)⟩

/-- A filtered list is nonempty exactly when some element satisfies the
filter. -/
theorem length_filter_pos_iff {α : Type} (l : List α) (p : α → Bool) :
    0 < (l.filter p).length ↔ ∃ a ∈ l, p a = true := by
  rw [← List.countP_eq_length_filter]
  exact List.countP_pos_iff

/-- C2: the overlap detector (as the routes call it, with no exclusion id)
reports a conflict exactly when some current, pending-or-approved request
of the user, in either table, satisfies the inclusive interval-overlap
test against the queried range. -/
theorem verificar_solapamiento_iff (db : DB) (uid : Nat) (fi ff : Fecha) (tipo : String) :
    (verificar_solapamiento db uid fi ff none tipo).1 = true ↔
      ((∃ s ∈ db.vacaciones, s.usuario_id = uid ∧ s.es_actual = true ∧
          (s.estado = "pendiente" ∨ s.estado = "aprobada") ∧
          s.fecha_inicio ≤ ff ∧ s.fecha_fin ≥ fi)
        ∨ (∃ s ∈ db.bajas, s.usuario_id = uid ∧ s.es_actual = true ∧
          (s.estado = "pendiente" ∨ s.estado = "aprobada") ∧
          s.fecha_inicio ≤ ff ∧ s.fecha_fin ≥ fi)) := by
  have hv : 0 < (db.vacaciones.filter fun s =>
        s.usuario_id == uid && s.es_actual &&
        (s.estado == "pendiente" || s.estado == "aprobada") &&
        decide (s.fecha_inicio ≤ ff) && decide (s.fecha_fin ≥ fi)).length ↔
      (∃ s ∈ db.vacaciones, s.usuario_id = uid ∧ s.es_actual = true ∧
        (s.estado = "pendiente" ∨ s.estado = "aprobada") ∧
        s.fecha_inicio ≤ ff ∧ s.fecha_fin ≥ fi) := by
    rw [length_filter_pos_iff]
    simp [Bool.and_eq_true, Bool.or_eq_true, beq_iff_eq, and_assoc]
  have hb : 0 < (db.bajas.filter fun s =>
        s.usuario_id == uid && s.es_actual &&
        (s.estado == "pendiente" || s.estado == "aprobada") &&
        decide (s.fecha_inicio ≤ ff) && decide (s.fecha_fin ≥ fi)).length ↔
      (∃ s ∈ db.bajas, s.usuario_id = uid ∧ s.es_actual = true ∧
        (s.estado = "pendiente" ∨ s.estado = "aprobada") ∧
        s.fecha_inicio ≤ ff ∧ s.fecha_fin ≥ fi) := by
    rw [length_filter_pos_iff]
    simp [Bool.and_eq_true, Bool.or_eq_true, beq_iff_eq, and_assoc]
  rw [verificar_solapamiento]
  simp only [truthy, Bool.and_false, Bool.false_eq_true, if_false]
  split_ifs with h1 h2
  · simpa using Or.inl (hv.mp h1)
  · simpa using Or.inr (hb.mp h2)
  · simp only [show ((false, (none : Option String)).1 = true) ↔ False by simp, false_iff]
    rintro (h | h)
    · exact h1 (hv.mpr h)
    · exact h2 (hb.mpr h)

/-- Summing the image of a filtered list equals a guarded sum over the
whole list. -/
theorem sum_filter_map_eq_sum_ite (l : List SolicitudVacaciones)
    (p : SolicitudVacaciones → Bool) (f : SolicitudVacaciones → Int) :
    ((l.filter p).map f).sum = (l.map (fun s => if p s then f s else 0)).sum := by
  induction l with
  | nil => rfl
  | cons a t ih => by_cases h : p a <;> simp [List.filter_cons, h, ih]

/-- Example user for the balance arithmetic: annual allotment of 25 days. -/
def u_saldo : Usuario := { id := 1, nombre := "Empleada", rol := "empleado", dias_vacaciones := 25 }

/-- One approved current 5-day vacation request of the example user. -/
def sol_aprobada_saldo : SolicitudVacaciones :=
  { id := 1, grupo_id := 1, version := 1, es_actual := true, usuario_id := 1,
    fecha_inicio := 738552, fecha_fin := 738556, dias_solicitados := 5,
    motivo := none, estado := "aprobada", fecha_solicitud := 0,
    fecha_respuesta := some 0, aprobador_id := some 2, comentarios := none }

/-- A rejected 5-day request of the same user: must not subtract. -/
def sol_rechazada_saldo : SolicitudVacaciones :=
  { sol_aprobada_saldo with id := 2, grupo_id := 2, estado := "rechazada" }

/-- Store for the balance example. -/
def db_saldo : DB :=
  { usuarios := [u_saldo], vacaciones := [sol_aprobada_saldo, sol_rechazada_saldo],
    bajas := [], tipos := [], festivos := [], aprobadores := [],
    next_id := 3, next_grupo := 3 }

/-- A user over-granted past entitlement: allotment 5, approved 10 days. -/
def u_saldo_neg : Usuario := { u_saldo with dias_vacaciones := 5 }

/-- Store for the negative-balance example. -/
def db_saldo_neg : DB :=
  { db_saldo with vacaciones := [{ sol_aprobada_saldo with dias_solicitados := 10 }] }

/-- C4: the available balance is the allotment minus the days of exactly
the approved, current vacation requests of the user; baja rows never enter
the computation; 25 minus one approved current 5-day request is 20 (the
rejected 5-day request does not subtract); and the value is reported as-is
when negative (allotment 5 against 10 approved days gives -5). -/
theorem dias_vacaciones_disponibles_spec (db : DB) (u : Usuario) :
    dias_vacaciones_disponibles db u
        = u.dias_vacaciones -
            (db.vacaciones.map (fun s =>
              if s.usuario_id = u.id ∧ s.estado = "aprobada" ∧ s.es_actual = true
              then (s.dias_solicitados : Int) else 0)).sum
      ∧ (∀ bajas2 : List SolicitudBaja,
          dias_vacaciones_disponibles { db with bajas := bajas2 } u
            = dias_vacaciones_disponibles db u)
      ∧ dias_vacaciones_disponibles db_saldo u_saldo = 20
      ∧ dias_vacaciones_disponibles db_saldo_neg u_saldo_neg = -5 := by
  refine ⟨?_, fun _ => rfl, by decide, by decide⟩
  rw [dias_vacaciones_disponibles, sum_filter_map_eq_sum_ite]
  have hpred : ∀ s : SolicitudVacaciones,
      ((s.usuario_id == u.id && s.estado == "aprobada" && s.es_actual) = true) ↔
        (s.usuario_id = u.id ∧ s.estado = "aprobada" ∧ s.es_actual = true) := by
    intro s
    simp [Bool.and_eq_true, beq_iff_eq, and_assoc]
  exact congrArg (fun z => u.dias_vacaciones - z)
    (congrArg List.sum (List.map_congr_left fun s _ => if_congr (hpred s) rfl rfl))

/-- A vacation submit either leaves the store untouched or succeeds and
appends one fresh current version-1 row, bumping both counters. -/
theorem solicitar_vacaciones_shape (db : DB) (cu : Usuario) (sel : Option Nat)
    (fi ff : Fecha) (motivo : Option String) (ahora : Nat) :
    (solicitar_vacaciones db cu sel fi ff motivo ahora).2 = db ∨
    ((solicitar_vacaciones db cu sel fi ff motivo ahora).1 = ResultadoVac.exito ∧
      ∃ s : SolicitudVacaciones, s.grupo_id = db.next_grupo ∧ s.es_actual = true ∧
        (solicitar_vacaciones db cu sel fi ff motivo ahora).2 =
          { db with vacaciones := db.vacaciones ++ [s],
                    next_id := db.next_id + 1, next_grupo := db.next_grupo + 1 }) := by
  unfold solicitar_vacaciones
  dsimp only
  split
  · exact Or.inl rfl
  · split
    · exact Or.inl rfl
    · split
      · exact Or.inl rfl
      · split
        · exact Or.inl rfl
        · split
          · exact Or.inl rfl
          · exact Or.inr ⟨rfl, _, rfl, rfl, rfl⟩

/-- A baja submit either leaves the store untouched or succeeds and
appends one fresh current version-1 row, bumping both counters. -/
theorem solicitar_baja_shape (db : DB) (cu : Usuario) (sel : Option Nat) (tipo_id : Nat)
    (fi ff : Fecha) (motivo : String) (ahora : Nat) :
    (solicitar_baja db cu sel tipo_id fi ff motivo ahora).2 = db ∨
    ((solicitar_baja db cu sel tipo_id fi ff motivo ahora).1 = ResultadoBaja.exito ∧
      ∃ s : SolicitudBaja, s.grupo_id = db.next_grupo ∧ s.es_actual = true ∧
        (solicitar_baja db cu sel tipo_id fi ff motivo ahora).2 =
          { db with bajas := db.bajas ++ [s],
                    next_id := db.next_id + 1, next_grupo := db.next_grupo + 1 }) := by
  unfold solicitar_baja
  dsimp only
  split
  · exact Or.inl rfl
  · split
    · exact Or.inl rfl
    · split
      · exact Or.inl rfl
      · split
        · exact Or.inl rfl
        · exact Or.inr ⟨rfl, _, rfl, rfl, rfl⟩

/-- User whose allotment was reduced to 5 days. -/
def u_saldo_corto : Usuario :=
  { id := 1, nombre := "Empleada", rol := "empleado", dias_vacaciones := 5 }

/-- Store with no requests for the insufficient-balance scenario. -/
def db_saldo_corto : DB :=
  { usuarios := [u_saldo_corto], vacaciones := [], bajas := [], tipos := [],
    festivos := [], aprobadores := [], next_id := 1, next_grupo := 1 }

/-- C3: a vacation submit checks, in order, invalid range, overlap, zero
chargeable days and balance (failing with saldo_insuficiente exactly when
the computed day count exceeds the target user available balance), and any
validation failure leaves the stored request set unchanged. -/
theorem solicitar_vacaciones_validaciones (db : DB) (cu : Usuario) (sel : Option Nat)
    (fi ff : Fecha) (motivo : Option String) (ahora : Nat) (target : Usuario)
    (htarget : resolver_target db cu sel = some target) :
    (ff < fi →
      solicitar_vacaciones db cu sel fi ff motivo ahora = (ResultadoVac.rango_invalido, db))
  ∧ (¬ ff < fi →
      (verificar_solapamiento db target.id fi ff none "vacaciones").1 = true →
      solicitar_vacaciones db cu sel fi ff motivo ahora =
        (ResultadoVac.solapamiento
          ((verificar_solapamiento db target.id fi ff none "vacaciones").2.getD ""), db))
  ∧ (¬ ff < fi →
      (verificar_solapamiento db target.id fi ff none "vacaciones").1 = false →
      calcular_dias_habiles db.festivos fi ff = 0 →
      solicitar_vacaciones db cu sel fi ff motivo ahora =
        (ResultadoVac.sin_dias_laborables, db))
  ∧ (¬ ff < fi →
      (verificar_solapamiento db target.id fi ff none "vacaciones").1 = false →
      0 < calcular_dias_habiles db.festivos fi ff →
      (((solicitar_vacaciones db cu sel fi ff motivo ahora).1 = ResultadoVac.saldo_insuficiente)
        ↔ ((calcular_dias_habiles db.festivos fi ff : Int) >
            dias_vacaciones_disponibles db target)))
  ∧ ((solicitar_vacaciones db cu sel fi ff motivo ahora).1 ≠ ResultadoVac.exito →
      (solicitar_vacaciones db cu sel fi ff motivo ahora).2 = db) := by
  refine ⟨?_, ?_, ?_, ?_, ?_⟩
  · intro hlt
    rw [solicitar_vacaciones, htarget]
    simp [hlt]
  · intro hge hov
    rw [solicitar_vacaciones, htarget]
    simp [hge, hov]
  · intro hge hov hz
    rw [solicitar_vacaciones, htarget]
    simp [hge, hov, hz]
  · intro hge hov hpos
    rw [solicitar_vacaciones, htarget]
    by_cases hs : (calcular_dias_habiles db.festivos fi ff : Int) >
        dias_vacaciones_disponibles db target <;>
      simp [hge, hov, Nat.le_zero, Nat.pos_iff_ne_zero.mp hpos, hs]
  · intro hne
    rcases solicitar_vacaciones_shape db cu sel fi ff motivo ahora with h | ⟨hres, _, _, _, _⟩
    · exact h
    · exact absurd hres hne

/-- Closed instance of the vacation validation theorem: the insufficient
balance scenario (allotment 5, Jan 1 - Jan 31 2023, 22 working days). -/
theorem solicitar_vacaciones_validaciones_witness :
    resolver_target db_saldo_corto u_saldo_corto none = some u_saldo_corto
      ∧ (¬ (738551 : Fecha) < 738521 →
          (verificar_solapamiento db_saldo_corto u_saldo_corto.id 738521 738551 none
              "vacaciones").1 = false →
          0 < calcular_dias_habiles db_saldo_corto.festivos 738521 738551 →
          (((solicitar_vacaciones db_saldo_corto u_saldo_corto none 738521 738551 none
                0).1 = ResultadoVac.saldo_insuficiente)
            ↔ ((calcular_dias_habiles db_saldo_corto.festivos 738521 738551 : Int) >
                dias_vacaciones_disponibles db_saldo_corto u_saldo_corto)))
      ∧ ((solicitar_vacaciones db_saldo_corto u_saldo_corto none 738521 738551 none
            0).1 ≠ ResultadoVac.exito →
          (solicitar_vacaciones db_saldo_corto u_saldo_corto none 738521 738551 none
            0).2 = db_saldo_corto) :=
  ⟨by decide,
    (solicitar_vacaciones_validaciones db_saldo_corto u_saldo_corto none 738521 738551
      none 0 u_saldo_corto (by decide)).2.2.2.1,
    (solicitar_vacaciones_validaciones db_saldo_corto u_saldo_corto none 738521 738551
      none 0 u_saldo_corto (by decide)).2.2.2.2⟩

/-- An absence type counted in working days. -/
def tipo_habiles : TipoAusencia :=
  { id := 1, nombre := "Asuntos propios", max_dias := 365, tipo_dias := "habiles",
    requiere_justificante := false, descuenta_vacaciones := false }

/-- Store for the all-weekend-range scenario: one habiles absence type,
no requests. -/
def db_finde : DB :=
  { usuarios := [u_saldo_corto], vacaciones := [], bajas := [], tipos := [tipo_habiles],
    festivos := [], aprobadores := [], next_id := 1, next_grupo := 1 }

/-- C9: when the resolved day count is zero, a vacation submit fails with
sin_dias_laborables and persists nothing, while a baja submit (for a
working-days type over the same range) succeeds and persists a row with a
zero day count. -/
theorem cero_dias_por_categoria (db : DB) (cu : Usuario) (sel : Option Nat)
    (fi ff : Fecha) (motivo : Option String) (motivo_b : String) (tipo_id : Nat)
    (ahora : Nat) (target : Usuario) (tipo_obj : TipoAusencia)
    (htarget : resolver_target db cu sel = some target)
    (hrango : ¬ ff < fi)
    (hov_v : (verificar_solapamiento db target.id fi ff none "vacaciones").1 = false)
    (hov_b : (verificar_solapamiento db target.id fi ff none "baja").1 = false)
    (htipo : db.tipos.find? (fun t => t.id == tipo_id) = some tipo_obj)
    (hnat : tipo_obj.tipo_dias ≠ "naturales")
    (hz : calcular_dias_habiles db.festivos fi ff = 0) :
    solicitar_vacaciones db cu sel fi ff motivo ahora = (ResultadoVac.sin_dias_laborables, db)
  ∧ (solicitar_baja db cu sel tipo_id fi ff motivo_b ahora).1 = ResultadoBaja.exito
  ∧ ∃ s : SolicitudBaja, s.dias_solicitados = 0 ∧
      (solicitar_baja db cu sel tipo_id fi ff motivo_b ahora).2.bajas = db.bajas ++ [s] := by
  refine ⟨?_, ?_, ?_⟩
  · rw [solicitar_vacaciones, htarget]
    simp [hrango, hov_v, hz]
  · rw [solicitar_baja, htarget]
    simp [hrango, hov_b, htipo, hnat, hz]
  · rw [solicitar_baja, htarget]
    simp only [hrango, if_false, hov_b, Bool.false_eq_true, htipo]
    refine ⟨_, ?_, rfl⟩
    simp [hnat, hz]

/-- Closed instance of the zero-day policy theorem at the weekend range
Sat Jan 7 - Sun Jan 8 2023 (ordinals 738527-738528). -/
theorem cero_dias_por_categoria_witness :
    solicitar_vacaciones db_finde u_saldo_corto none 738527 738528 none 0
        = (ResultadoVac.sin_dias_laborables, db_finde)
      ∧ (solicitar_baja db_finde u_saldo_corto none 1 738527 738528 "medico" 0).1
          = ResultadoBaja.exito
      ∧ ∃ s : SolicitudBaja, s.dias_solicitados = 0 ∧
          (solicitar_baja db_finde u_saldo_corto none 1 738527 738528 "medico" 0).2.bajas
            = db_finde.bajas ++ [s] :=
  cero_dias_por_categoria db_finde u_saldo_corto none 738527 738528 none "medico" 1 0
    u_saldo_corto tipo_habiles (by decide) (by decide) (by decide) (by decide)
    (by decide) (by decide) (by decide)

/-- A list whose filter count is one filters to exactly its one satisfying
element. -/
theorem filter_eq_singleton_of_countP_one {α : Type} (l : List α)
    (p : α → Bool) (a : α) (ha : a ∈ l) (hpa : p a = true)
    (h1 : l.countP p = 1) : l.filter p = [a] := by
  rw [List.countP_eq_length_filter] at h1
  obtain ⟨x, hx⟩ := List.length_eq_one.mp h1
  have hmem : a ∈ l.filter p := List.mem_filter.mpr ⟨ha, hpa⟩
  rw [hx] at hmem
  simp only [List.mem_singleton] at hmem
  rw [hx, hmem]

/-- C8: cancellation succeeds exactly for the owner or an admin, on a
pending request unless the actor is an admin; on success the
current-version query for the request group returns exactly one row and
that row is rechazada; a disallowed cancel leaves the store unchanged. -/
theorem cancelar_vacaciones_contrato (db : DB) (cu : Usuario) (id ahora : Nat)
    (sol : SolicitudVacaciones)
    (hfind : db.vacaciones.find? (fun s => s.id == id) = some sol)
    (hcur : sol.es_actual = true)
    (hgrupo : db.vacaciones.countP
        (fun r => r.grupo_id == sol.grupo_id && r.es_actual) = 1) :
    (((cancelar_vacaciones db cu id ahora).1 = ResultadoCancelar.cancelada) ↔
      ((sol.usuario_id = cu.id ∨ cu.rol = "admin") ∧
        (sol.estado = "pendiente" ∨ cu.rol = "admin")))
  ∧ ((cancelar_vacaciones db cu id ahora).1 = ResultadoCancelar.cancelada →
      ∃ s2 : SolicitudVacaciones,
        (cancelar_vacaciones db cu id ahora).2.vacaciones.filter
            (fun r => r.grupo_id == sol.grupo_id && r.es_actual) = [s2]
          ∧ s2.estado = "rechazada")
  ∧ ((cancelar_vacaciones db cu id ahora).1 ≠ ResultadoCancelar.cancelada →
      (cancelar_vacaciones db cu id ahora).2 = db) := by
  have hmem : sol ∈ db.vacaciones := List.mem_of_find?_eq_some hfind
  have hid : (sol.id == id) = true := by
    have h := List.find?_some hfind
    simpa using h
  refine ⟨?_, ?_, ?_⟩
  · rw [cancelar_vacaciones, hfind]
    dsimp only
    by_cases h1 : sol.usuario_id = cu.id <;> by_cases h2 : cu.rol = "admin" <;>
      by_cases h3 : sol.estado = "pendiente" <;> simp [h1, h2, h3]
  · intro hc
    rw [cancelar_vacaciones, hfind] at hc ⊢
    dsimp only at hc ⊢
    split at hc
    · exact absurd hc (by simp)
    · split at hc
      · exact absurd hc (by simp)
      · next hp1 hp2 =>
        rw [if_neg hp1, if_neg hp2]
        have hfil : db.vacaciones.filter
            (fun r => r.grupo_id == sol.grupo_id && r.es_actual) = [sol] :=
          filter_eq_singleton_of_countP_one _ _ _ hmem (by simp [hcur]) hgrupo
        have hcomp : (db.vacaciones.map (fun s =>
              if s.id == id then marcar_cancelada cu ahora s else s)).filter
            (fun r => r.grupo_id == sol.grupo_id && r.es_actual)
            = [if sol.id == id then marcar_cancelada cu ahora sol else sol] := by
          rw [List.filter_map]
          have heq : db.vacaciones.filter ((fun r =>
                r.grupo_id == sol.grupo_id && r.es_actual) ∘ (fun s =>
                if s.id == id then marcar_cancelada cu ahora s else s))
              = db.vacaciones.filter
                (fun r => r.grupo_id == sol.grupo_id && r.es_actual) := by
            refine List.filter_congr fun s _ => ?_
            by_cases hs : (s.id == id) = true <;> simp [Function.comp, hs, marcar_cancelada]
          rw [heq, hfil]
          rfl
        refine ⟨marcar_cancelada cu ahora sol, ?_, rfl⟩
        rw [hcomp, hid]
        simp
  · rw [cancelar_vacaciones, hfind]
    dsimp only
    split
    · intro _
      rfl
    · split
      · intro _
        rfl
      · intro hne
        exact absurd rfl hne

/-- A pending current request, id 1, owned by user 1. -/
def sol_pendiente : SolicitudVacaciones :=
  { id := 1, grupo_id := 1, version := 1, es_actual := true,
    usuario_id := 1, fecha_inicio := 738552, fecha_fin := 738556,
    dias_solicitados := 5, motivo := none, estado := "pendiente",
    fecha_solicitud := 0, fecha_respuesta := none, aprobador_id := none,
    comentarios := none }

/-- Store for the cancellation scenarios: just the pending request. -/
def db_cancel : DB :=
  { usuarios := [u_saldo_corto], vacaciones := [sol_pendiente],
    bajas := [], tipos := [], festivos := [], aprobadores := [],
    next_id := 2, next_grupo := 2 }

/-- Closed instance of the cancellation contract: the owner cancels their
own pending request. -/
theorem cancelar_vacaciones_contrato_witness :
    (((cancelar_vacaciones db_cancel u_saldo_corto 1 7).1 = ResultadoCancelar.cancelada) ↔
      ((1 = u_saldo_corto.id ∨ u_saldo_corto.rol = "admin") ∧
        ("pendiente" = "pendiente" ∨ u_saldo_corto.rol = "admin")))
  ∧ ((cancelar_vacaciones db_cancel u_saldo_corto 1 7).1 = ResultadoCancelar.cancelada →
      ∃ s2 : SolicitudVacaciones,
        (cancelar_vacaciones db_cancel u_saldo_corto 1 7).2.vacaciones.filter
            (fun r => r.grupo_id == 1 && r.es_actual) = [s2]
          ∧ s2.estado = "rechazada") := by
  have h := cancelar_vacaciones_contrato db_cancel u_saldo_corto 1 7
    sol_pendiente (by decide) (by decide) (by decide)
  exact ⟨h.1, h.2.1⟩

/-- C10: a permitted cancellation rewrites the vacation table in place by
the cancellation updater and touches nothing else: no row is inserted or
removed, rows with a different id are untouched, and the updater changes
only estado, comentarios and fecha_respuesta, preserving grupo_id,
version, es_actual, usuario_id, the date range, dias_solicitados and
motivo. -/
theorem cancelar_vacaciones_frame (db : DB) (cu : Usuario) (id ahora : Nat)
    (sol : SolicitudVacaciones)
    (hfind : db.vacaciones.find? (fun s => s.id == id) = some sol)
    (hperm : (cancelar_vacaciones db cu id ahora).1 = ResultadoCancelar.cancelada) :
    (cancelar_vacaciones db cu id ahora).2.vacaciones
        = db.vacaciones.map (fun s =>
            if s.id == id then marcar_cancelada cu ahora s else s)
  ∧ (cancelar_vacaciones db cu id ahora).2.vacaciones.length = db.vacaciones.length
  ∧ (cancelar_vacaciones db cu id ahora).2.bajas = db.bajas
  ∧ (cancelar_vacaciones db cu id ahora).2.usuarios = db.usuarios
  ∧ (cancelar_vacaciones db cu id ahora).2.tipos = db.tipos
  ∧ (cancelar_vacaciones db cu id ahora).2.festivos = db.festivos
  ∧ (cancelar_vacaciones db cu id ahora).2.aprobadores = db.aprobadores
  ∧ (cancelar_vacaciones db cu id ahora).2.next_id = db.next_id
  ∧ (cancelar_vacaciones db cu id ahora).2.next_grupo = db.next_grupo
  ∧ (∀ s : SolicitudVacaciones, (s.id == id) = false →
      (if s.id == id then marcar_cancelada cu ahora s else s) = s)
  ∧ (∀ s : SolicitudVacaciones,
        (marcar_cancelada cu ahora s).grupo_id = s.grupo_id
      ∧ (marcar_cancelada cu ahora s).version = s.version
      ∧ (marcar_cancelada cu ahora s).es_actual = s.es_actual
      ∧ (marcar_cancelada cu ahora s).usuario_id = s.usuario_id
      ∧ (marcar_cancelada cu ahora s).fecha_inicio = s.fecha_inicio
      ∧ (marcar_cancelada cu ahora s).fecha_fin = s.fecha_fin
      ∧ (marcar_cancelada cu ahora s).dias_solicitados = s.dias_solicitados
      ∧ (marcar_cancelada cu ahora s).motivo = s.motivo
      ∧ (marcar_cancelada cu ahora s).estado = "rechazada"
      ∧ (marcar_cancelada cu ahora s).comentarios
          = some ("Cancelada por " ++ cu.nombre)
      ∧ (marcar_cancelada cu ahora s).fecha_respuesta = some ahora) := by
  have hvac : (cancelar_vacaciones db cu id ahora).2.vacaciones
      = db.vacaciones.map (fun s =>
          if s.id == id then marcar_cancelada cu ahora s else s) := by
    rw [cancelar_vacaciones, hfind] at hperm ⊢
    dsimp only at hperm ⊢
    split at hperm
    · exact absurd hperm (by simp)
    · split at hperm
      · exact absurd hperm (by simp)
      · next hp1 hp2 =>
        rw [if_neg hp1, if_neg hp2]
  have hrest : (cancelar_vacaciones db cu id ahora).2.bajas = db.bajas
      ∧ (cancelar_vacaciones db cu id ahora).2.usuarios = db.usuarios
      ∧ (cancelar_vacaciones db cu id ahora).2.tipos = db.tipos
      ∧ (cancelar_vacaciones db cu id ahora).2.festivos = db.festivos
      ∧ (cancelar_vacaciones db cu id ahora).2.aprobadores = db.aprobadores
      ∧ (cancelar_vacaciones db cu id ahora).2.next_id = db.next_id
      ∧ (cancelar_vacaciones db cu id ahora).2.next_grupo = db.next_grupo := by
    rw [cancelar_vacaciones, hfind] at hperm ⊢
    dsimp only at hperm ⊢
    split at hperm
    · exact absurd hperm (by simp)
    · split at hperm
      · exact absurd hperm (by simp)
      · next hp1 hp2 =>
        rw [if_neg hp1, if_neg hp2]
        exact ⟨rfl, rfl, rfl, rfl, rfl, rfl, rfl⟩
  refine ⟨hvac, by rw [hvac, List.length_map], hrest.1, hrest.2.1, hrest.2.2.1,
    hrest.2.2.2.1, hrest.2.2.2.2.1, hrest.2.2.2.2.2.1, hrest.2.2.2.2.2.2,
    fun s hs => by rw [if_neg (by simp_all)],
    fun s => ⟨rfl, rfl, rfl, rfl, rfl, rfl, rfl, rfl, rfl, rfl, rfl⟩⟩

/-- Closed instance of the cancellation frame theorem at the pending
request of the example store. -/
theorem cancelar_vacaciones_frame_witness :
    (cancelar_vacaciones db_cancel u_saldo_corto 1 7).2.vacaciones
        = db_cancel.vacaciones.map (fun s =>
            if s.id == 1 then marcar_cancelada u_saldo_corto 7 s else s)
  ∧ (cancelar_vacaciones db_cancel u_saldo_corto 1 7).2.vacaciones.length
      = db_cancel.vacaciones.length
  ∧ (cancelar_vacaciones db_cancel u_saldo_corto 1 7).2.bajas = db_cancel.bajas := by
  have h := cancelar_vacaciones_frame db_cancel u_saldo_corto 1 7
    sol_pendiente (by decide) (by decide)
  exact ⟨h.1, h.2.1, h.2.2.1⟩

/-- Reduction of responder_solicitud in the authorized, recognized-action
case: the decision is applied unconditionally (no check of the previous
estado or of es_actual exists in the route) and the effect trace contains
no external-calendar call. -/
theorem responder_solicitud_aplica (db : DB) (cu : Usuario) (id ahora : Nat)
    (accion nuevo : String) (sol : SolicitudVacaciones)
    (hrol : cu.rol = "aprobador" ∨ cu.rol = "admin")
    (hfind : db.vacaciones.find? (fun s => s.id == id) = some sol)
    (hauth : db.aprobadores.any (fun r => r.aprobador_id == cu.id &&
        r.usuario_id == sol.usuario_id) = true ∨ cu.rol = "admin")
    (hacc : (accion = "aprobar" ∧ nuevo = "aprobada")
          ∨ (accion = "rechazar" ∧ nuevo = "rechazada")) :
    (responder_solicitud db cu id accion ahora).1 = ResultadoResponder.respondida
  ∧ (responder_solicitud db cu id accion ahora).2.1.vacaciones
      = db.vacaciones.map (fun s =>
          if s.id == id then marcar_respondida nuevo cu ahora s else s)
  ∧ (responder_solicitud db cu id accion ahora).2.2.filter es_evento_calendario = [] := by
  have hrolb : (cu.rol == "aprobador" || cu.rol == "admin") = true := by
    rcases hrol with h | h <;> simp [h]
  have hcond : (! db.aprobadores.any (fun r => r.aprobador_id == cu.id &&
      r.usuario_id == sol.usuario_id) && cu.rol != "admin") = false := by
    rcases hauth with h | h <;> simp [h]
  rw [responder_solicitud]
  simp only [hrolb, Bool.not_true, Bool.false_eq_true, if_false, hfind]
  simp only [hcond, Bool.false_eq_true, if_false]
  rcases hacc with ⟨ha, hn⟩ | ⟨ha, hn⟩ <;> subst ha <;> subst hn <;>
    simp [es_evento_calendario]

/-- Reduction of responder_baja in the authorized, recognized-action case,
mirroring responder_solicitud_aplica. -/
theorem responder_baja_aplica (db : DB) (cu : Usuario) (id ahora : Nat)
    (accion nuevo : String) (sol : SolicitudBaja)
    (hrol : cu.rol = "aprobador" ∨ cu.rol = "admin")
    (hfind : db.bajas.find? (fun s => s.id == id) = some sol)
    (hauth : db.aprobadores.any (fun r => r.aprobador_id == cu.id &&
        r.usuario_id == sol.usuario_id) = true ∨ cu.rol = "admin")
    (hacc : (accion = "aprobar" ∧ nuevo = "aprobada")
          ∨ (accion = "rechazar" ∧ nuevo = "rechazada")) :
    (responder_baja db cu id accion ahora).1 = ResultadoResponder.respondida
  ∧ (responder_baja db cu id accion ahora).2.1.bajas
      = db.bajas.map (fun s =>
          if s.id == id then marcar_baja_respondida nuevo cu ahora s else s)
  ∧ (responder_baja db cu id accion ahora).2.2.filter es_evento_calendario = [] := by
  have hrolb : (cu.rol == "aprobador" || cu.rol == "admin") = true := by
    rcases hrol with h | h <;> simp [h]
  have hcond : (! db.aprobadores.any (fun r => r.aprobador_id == cu.id &&
      r.usuario_id == sol.usuario_id) && cu.rol != "admin") = false := by
    rcases hauth with h | h <;> simp [h]
  rw [responder_baja]
  simp only [hrolb, Bool.not_true, Bool.false_eq_true, if_false, hfind]
  simp only [hcond, Bool.false_eq_true, if_false]
  rcases hacc with ⟨ha, hn⟩ | ⟨ha, hn⟩ <;> subst ha <;> subst hn <;>
    simp [es_evento_calendario]

/-- The approver of user 1. -/
def u_jefa : Usuario := { id := 2, nombre := "Jefa", rol := "aprobador", dias_vacaciones := 25 }

/-- Store for the respond scenarios: the pending Feb 1 - Feb 5 2023 request
of user 1 and the approver assignment (1, 2). -/
def db_responder : DB :=
  { usuarios := [u_saldo_corto, u_jefa], vacaciones := [sol_pendiente],
    bajas := [], tipos := [], festivos := [],
    aprobadores := [{ usuario_id := 1, aprobador_id := 2 }],
    next_id := 2, next_grupo := 2 }

/-- C1 counterexample: approving and then rejecting the same request makes
the second call SUCCEED (it does not fail with any already-processed
error) and leaves the status rechazada, not aprobada: the routes never
check the previous estado or es_actual. -/
theorem responder_doble_contraejemplo :
    (responder_solicitud
        (responder_solicitud db_responder u_jefa 1 "aprobar" 10).2.1
        u_jefa 1 "rechazar" 20).1 = ResultadoResponder.respondida
  ∧ ((responder_solicitud
        (responder_solicitud db_responder u_jefa 1 "aprobar" 10).2.1
        u_jefa 1 "rechazar" 20).2.1.vacaciones.map (fun s => s.estado))
      = ["rechazada"] := by
  exact ⟨by decide, by decide⟩

/-- C1 amended: respond never fails for status reasons.  For any request
row found by id (of either category), an authorized actor and a recognized
action, the decision is applied and recorded unconditionally - with no
hypothesis on the previous estado or on es_actual. -/
theorem responder_sin_precondicion_de_estado (db : DB) (cu : Usuario)
    (id ahora : Nat) (accion nuevo : String) :
    (∀ sol : SolicitudVacaciones,
      (cu.rol = "aprobador" ∨ cu.rol = "admin") →
      db.vacaciones.find? (fun s => s.id == id) = some sol →
      (db.aprobadores.any (fun r => r.aprobador_id == cu.id &&
          r.usuario_id == sol.usuario_id) = true ∨ cu.rol = "admin") →
      ((accion = "aprobar" ∧ nuevo = "aprobada")
        ∨ (accion = "rechazar" ∧ nuevo = "rechazada")) →
      (responder_solicitud db cu id accion ahora).1 = ResultadoResponder.respondida
      ∧ (responder_solicitud db cu id accion ahora).2.1.vacaciones
          = db.vacaciones.map (fun s =>
              if s.id == id then marcar_respondida nuevo cu ahora s else s))
  ∧ (∀ sol : SolicitudBaja,
      (cu.rol = "aprobador" ∨ cu.rol = "admin") →
      db.bajas.find? (fun s => s.id == id) = some sol →
      (db.aprobadores.any (fun r => r.aprobador_id == cu.id &&
          r.usuario_id == sol.usuario_id) = true ∨ cu.rol = "admin") →
      ((accion = "aprobar" ∧ nuevo = "aprobada")
        ∨ (accion = "rechazar" ∧ nuevo = "rechazada")) →
      (responder_baja db cu id accion ahora).1 = ResultadoResponder.respondida
      ∧ (responder_baja db cu id accion ahora).2.1.bajas
          = db.bajas.map (fun s =>
              if s.id == id then marcar_baja_respondida nuevo cu ahora s else s)) := by
  constructor
  · intro sol hrol hfind hauth hacc
    have h := responder_solicitud_aplica db cu id ahora accion nuevo sol hrol hfind hauth hacc
    exact ⟨h.1, h.2.1⟩
  · intro sol hrol hfind hauth hacc
    have h := responder_baja_aplica db cu id ahora accion nuevo sol hrol hfind hauth hacc
    exact ⟨h.1, h.2.1⟩

/-- An already-approved vacation row (not pending). -/
def sol_ya_aprobada : SolicitudVacaciones := { sol_pendiente with estado := "aprobada" }

/-- An approved, non-current baja row. -/
def baja_no_actual : SolicitudBaja :=
  { id := 1, grupo_id := 1, version := 1, es_actual := false,
    usuario_id := 1, tipo_ausencia_id := some 1, fecha_inicio := 738552,
    fecha_fin := 738556, dias_solicitados := 5, motivo := "gripe",
    estado := "aprobada", fecha_solicitud := 0, fecha_respuesta := some 0,
    aprobador_id := some 2, comentarios := none }

/-- Store holding only already-processed / non-current rows. -/
def db_ya_procesadas : DB :=
  { db_responder with vacaciones := [sol_ya_aprobada], bajas := [baja_no_actual] }

/-- Closed instance of the amended respond theorem, at rows that are NOT
(pending and current): an approved vacation row and a non-current baja row
both get rejected anyway. -/
theorem responder_sin_precondicion_de_estado_witness :
    ((responder_solicitud db_ya_procesadas u_jefa 1 "rechazar" 20).1
        = ResultadoResponder.respondida
      ∧ (responder_solicitud db_ya_procesadas u_jefa 1 "rechazar" 20).2.1.vacaciones
          = db_ya_procesadas.vacaciones.map (fun s =>
              if s.id == 1 then marcar_respondida "rechazada" u_jefa 20 s else s))
  ∧ ((responder_baja db_ya_procesadas u_jefa 1 "rechazar" 20).1
        = ResultadoResponder.respondida
      ∧ (responder_baja db_ya_procesadas u_jefa 1 "rechazar" 20).2.1.bajas
          = db_ya_procesadas.bajas.map (fun s =>
              if s.id == 1 then marcar_baja_respondida "rechazada" u_jefa 20 s else s)) :=
  ⟨(responder_sin_precondicion_de_estado db_ya_procesadas u_jefa 1 20
      "rechazar" "rechazada").1 sol_ya_aprobada (Or.inl rfl) (by decide) (by decide)
      (Or.inr ⟨rfl, rfl⟩),
    (responder_sin_precondicion_de_estado db_ya_procesadas u_jefa 1 20
      "rechazar" "rechazada").2 baja_no_actual (Or.inl rfl) (by decide) (by decide)
      (Or.inr ⟨rfl, rfl⟩)⟩

/-- C7 counterexample: approving the pending Feb 1 - Feb 5 2023 request
does set the status, but the complete interaction trace of the call is the
single flash message - it contains no call into the external-calendar
collaborator, so no sync is attempted (google_calendar is never invoked
by the respond route). -/
theorem responder_aprobar_sin_sync_contraejemplo :
    (responder_solicitud db_responder u_jefa 1 "aprobar" 10).1
        = ResultadoResponder.respondida
  ∧ (responder_solicitud db_responder u_jefa 1 "aprobar" 10).2.2
      = [Efecto.flash "Solicitud de vacaciones aprobada." "success"]
  ∧ (responder_solicitud db_responder u_jefa 1 "aprobar" 10).2.2.filter
        es_evento_calendario = [] := by
  exact ⟨by decide, by decide, by decide⟩

/-- C7 amended: respond with aprobar by an authorized actor sets estado to
aprobada, aprobador_id to the actor and fecha_respuesta to now, but
attempts no external-calendar sync: the effect trace of the call contains
no calendar-collaborator call. -/
theorem responder_aprobar_actualiza_sin_sync (db : DB) (cu : Usuario)
    (id ahora : Nat) (sol : SolicitudVacaciones)
    (hrol : cu.rol = "aprobador" ∨ cu.rol = "admin")
    (hfind : db.vacaciones.find? (fun s => s.id == id) = some sol)
    (hauth : db.aprobadores.any (fun r => r.aprobador_id == cu.id &&
        r.usuario_id == sol.usuario_id) = true ∨ cu.rol = "admin") :
    (responder_solicitud db cu id "aprobar" ahora).1 = ResultadoResponder.respondida
  ∧ (responder_solicitud db cu id "aprobar" ahora).2.1.vacaciones
      = db.vacaciones.map (fun s =>
          if s.id == id then marcar_respondida "aprobada" cu ahora s else s)
  ∧ (∀ s : SolicitudVacaciones,
        (marcar_respondida "aprobada" cu ahora s).estado = "aprobada"
      ∧ (marcar_respondida "aprobada" cu ahora s).aprobador_id = some cu.id
      ∧ (marcar_respondida "aprobada" cu ahora s).fecha_respuesta = some ahora)
  ∧ (responder_solicitud db cu id "aprobar" ahora).2.2.filter
        es_evento_calendario = [] := by
  have h := responder_solicitud_aplica db cu id ahora "aprobar" "aprobada" sol
    hrol hfind hauth (Or.inl ⟨rfl, rfl⟩)
  exact ⟨h.1, h.2.1, fun s => ⟨rfl, rfl, rfl⟩, h.2.2⟩

/-- Closed instance of the amended approval theorem at the pending
Feb 1 - Feb 5 2023 request. -/
theorem responder_aprobar_actualiza_sin_sync_witness :
    (responder_solicitud db_responder u_jefa 1 "aprobar" 10).1
        = ResultadoResponder.respondida
  ∧ (responder_solicitud db_responder u_jefa 1 "aprobar" 10).2.1.vacaciones
      = db_responder.vacaciones.map (fun s =>
          if s.id == 1 then marcar_respondida "aprobada" u_jefa 10 s else s)
  ∧ (∀ s : SolicitudVacaciones,
        (marcar_respondida "aprobada" u_jefa 10 s).estado = "aprobada"
      ∧ (marcar_respondida "aprobada" u_jefa 10 s).aprobador_id = some u_jefa.id
      ∧ (marcar_respondida "aprobada" u_jefa 10 s).fecha_respuesta = some 10)
  ∧ (responder_solicitud db_responder u_jefa 1 "aprobar" 10).2.2.filter
        es_evento_calendario = [] :=
  responder_aprobar_actualiza_sin_sync db_responder u_jefa 1 10 sol_pendiente
    (Or.inl rfl) (by decide) (by decide)

/-! ### Invariante de versionado -/

/-- The claim property: in each table, every group that has a stored row
has exactly one row with es_actual = true. -/
def unico_actual (db : DB) : Prop :=
  (∀ s ∈ db.vacaciones, db.vacaciones.countP
      (fun r => r.grupo_id == s.grupo_id && r.es_actual) = 1)
  ∧ (∀ s ∈ db.bajas, db.bajas.countP
      (fun r => r.grupo_id == s.grupo_id && r.es_actual) = 1)

/-- Bookkeeping for induction: every stored group id is below the uuid
freshness counter, so a newly generated group id is never already stored. -/
def grupos_frescos (db : DB) : Prop :=
  (∀ s ∈ db.vacaciones, s.grupo_id < db.next_grupo)
  ∧ (∀ s ∈ db.bajas, s.grupo_id < db.next_grupo)

/-- The versioning invariant carried across lifecycle operations. -/
def invariante (db : DB) : Prop := unico_actual db ∧ grupos_frescos db

/-- A row rewrite that preserves grupo_id and es_actual preserves the
one-current-per-group property. -/
theorem unico_actual_map_gen {α : Type} (g : α → Nat) (act : α → Bool)
    (l : List α) (f : α → α)
    (hf : ∀ s, g (f s) = g s ∧ act (f s) = act s)
    (h : ∀ s ∈ l, l.countP (fun r => g r == g s && act r) = 1) :
    ∀ s ∈ l.map f, (l.map f).countP (fun r => g r == g s && act r) = 1 := by
  intro s hs
  obtain ⟨t, ht, rfl⟩ := List.mem_map.mp hs
  rw [List.countP_map]
  have hcong : l.countP ((fun r => g r == g (f t) && act r) ∘ f)
      = l.countP (fun r => g r == g t && act r) :=
    List.countP_congr fun r _ => by
      simp [Function.comp, (hf r).1, (hf r).2, (hf t).1]
  rw [hcong]
  exact h t ht

/-- Appending one current row with a fresh group id preserves the
one-current-per-group property. -/
theorem unico_actual_append_gen {α : Type} (g : α → Nat) (act : α → Bool)
    (l : List α) (nuevo : α) (n : Nat)
    (hng : g nuevo = n) (hna : act nuevo = true)
    (hfresh : ∀ s ∈ l, g s < n)
    (h : ∀ s ∈ l, l.countP (fun r => g r == g s && act r) = 1) :
    ∀ s ∈ l ++ [nuevo], (l ++ [nuevo]).countP (fun r => g r == g s && act r) = 1 := by
  intro s hs
  rw [List.countP_append]
  rcases List.mem_append.mp hs with hmem | hmem
  · have hnew : ([nuevo].countP (fun r => g r == g s && act r)) = 0 := by
      have hne : g nuevo ≠ g s := by
        rw [hng]
        exact Ne.symm (Nat.ne_of_lt (hfresh s hmem))
      simp [List.countP_cons, hne]
    rw [h s hmem, hnew]
  · simp only [List.mem_singleton] at hmem
    subst hmem
    have hl0 : l.countP (fun r => g r == g s && act r) = 0 := by
      rw [List.countP_eq_zero]
      intro a ha
      have hne : g a ≠ g s := by
        rw [hng]
        exact Nat.ne_of_lt (hfresh a ha)
      simp [hne]
    rw [hl0]
    simp [List.countP_cons, hna]

/-- Shape of cancelar_vacaciones: the store is unchanged or the vacation
table is rewritten in place by the cancellation updater. -/
theorem cancelar_vacaciones_shape (db : DB) (cu : Usuario) (id ahora : Nat) :
    (cancelar_vacaciones db cu id ahora).2 = db ∨
    (cancelar_vacaciones db cu id ahora).2 =
      { db with vacaciones := db.vacaciones.map (fun s =>
          if s.id == id then marcar_cancelada cu ahora s else s) } := by
  rw [cancelar_vacaciones]
  split
  · exact Or.inl rfl
  · dsimp only
    split
    · exact Or.inl rfl
    · split
      · exact Or.inl rfl
      · exact Or.inr rfl

/-- Shape of responder_solicitud: the store is unchanged or the vacation
table is rewritten in place by the respond updater. -/
theorem responder_solicitud_shape (db : DB) (cu : Usuario) (id : Nat)
    (accion : String) (ahora : Nat) :
    (responder_solicitud db cu id accion ahora).2.1 = db ∨
    ∃ nuevo : String, (responder_solicitud db cu id accion ahora).2.1 =
      { db with vacaciones := db.vacaciones.map (fun s =>
          if s.id == id then marcar_respondida nuevo cu ahora s else s) } := by
  rw [responder_solicitud]
  split
  · exact Or.inl rfl
  · split
    · exact Or.inl rfl
    · dsimp only
      split
      · exact Or.inl rfl
      · split
        · exact Or.inr ⟨"aprobada", rfl⟩
        · split
          · exact Or.inr ⟨"rechazada", rfl⟩
          · exact Or.inl rfl

/-- Shape of responder_baja: the store is unchanged or the baja table is
rewritten in place by the respond updater. -/
theorem responder_baja_shape (db : DB) (cu : Usuario) (id : Nat)
    (accion : String) (ahora : Nat) :
    (responder_baja db cu id accion ahora).2.1 = db ∨
    ∃ nuevo : String, (responder_baja db cu id accion ahora).2.1 =
      { db with bajas := db.bajas.map (fun s =>
          if s.id == id then marcar_baja_respondida nuevo cu ahora s else s) } := by
  rw [responder_baja]
  split
  · exact Or.inl rfl
  · split
    · exact Or.inl rfl
    · dsimp only
      split
      · exact Or.inl rfl
      · split
        · exact Or.inr ⟨"aprobada", rfl⟩
        · split
          · exact Or.inr ⟨"rechazada", rfl⟩
          · exact Or.inl rfl

/-- Every lifecycle operation preserves the versioning invariant. -/
theorem invariante_aplicar (db : DB) (op : Op) (h : invariante db) :
    invariante (aplicar db op) := by
  obtain ⟨⟨huv, hub⟩, ⟨hfv, hfb⟩⟩ := h
  cases op with
  | solicitarVac cu sel fi ff motivo ahora =>
    show invariante (solicitar_vacaciones db cu sel fi ff motivo ahora).2
    rcases solicitar_vacaciones_shape db cu sel fi ff motivo ahora with
      heq | ⟨_, s, hg, ha, heq⟩
    · rw [heq]
      exact ⟨⟨huv, hub⟩, hfv, hfb⟩
    · rw [heq]
      refine ⟨⟨?_, hub⟩, ?_, ?_⟩
      · exact unico_actual_append_gen _ _ _ _ db.next_grupo hg ha hfv huv
      · intro s2 hs2
        rcases List.mem_append.mp hs2 with hm | hm
        · exact Nat.lt_succ_of_lt (hfv s2 hm)
        · simp only [List.mem_singleton] at hm
          subst hm
          rw [hg]
          exact Nat.lt_succ_self _
      · intro s2 hs2
        exact Nat.lt_succ_of_lt (hfb s2 hs2)
  | solicitarBaja cu sel tipo fi ff motivo ahora =>
    show invariante (solicitar_baja db cu sel tipo fi ff motivo ahora).2
    rcases solicitar_baja_shape db cu sel tipo fi ff motivo ahora with
      heq | ⟨_, s, hg, ha, heq⟩
    · rw [heq]
      exact ⟨⟨huv, hub⟩, hfv, hfb⟩
    · rw [heq]
      refine ⟨⟨huv, ?_⟩, ?_, ?_⟩
      · exact unico_actual_append_gen _ _ _ _ db.next_grupo hg ha hfb hub
      · intro s2 hs2
        exact Nat.lt_succ_of_lt (hfv s2 hs2)
      · intro s2 hs2
        rcases List.mem_append.mp hs2 with hm | hm
        · exact Nat.lt_succ_of_lt (hfb s2 hm)
        · simp only [List.mem_singleton] at hm
          subst hm
          rw [hg]
          exact Nat.lt_succ_self _
  | cancelarVac cu id ahora =>
    show invariante (cancelar_vacaciones db cu id ahora).2
    rcases cancelar_vacaciones_shape db cu id ahora with heq | heq
    · rw [heq]
      exact ⟨⟨huv, hub⟩, hfv, hfb⟩
    · rw [heq]
      refine ⟨⟨?_, hub⟩, ?_, hfb⟩
      · refine unico_actual_map_gen _ _ _ _ (fun s => ?_) huv
        by_cases hs : (s.id == id) = true <;> simp [hs, marcar_cancelada]
      · intro s2 hs2
        obtain ⟨t, ht, rfl⟩ := List.mem_map.mp hs2
        by_cases hs : (t.id == id) = true <;>
          simp only [hs, if_true, if_false, Bool.false_eq_true, marcar_cancelada] <;>
          exact hfv t ht
  | responderVac cu id accion ahora =>
    show invariante (responder_solicitud db cu id accion ahora).2.1
    rcases responder_solicitud_shape db cu id accion ahora with heq | ⟨nuevo, heq⟩
    · rw [heq]
      exact ⟨⟨huv, hub⟩, hfv, hfb⟩
    · rw [heq]
      refine ⟨⟨?_, hub⟩, ?_, hfb⟩
      · refine unico_actual_map_gen _ _ _ _ (fun s => ?_) huv
        by_cases hs : (s.id == id) = true <;> simp [hs, marcar_respondida]
      · intro s2 hs2
        obtain ⟨t, ht, rfl⟩ := List.mem_map.mp hs2
        by_cases hs : (t.id == id) = true <;>
          simp only [hs, if_true, if_false, Bool.false_eq_true, marcar_respondida] <;>
          exact hfv t ht
  | responderBaja cu id accion ahora =>
    show invariante (responder_baja db cu id accion ahora).2.1
    rcases responder_baja_shape db cu id accion ahora with heq | ⟨nuevo, heq⟩
    · rw [heq]
      exact ⟨⟨huv, hub⟩, hfv, hfb⟩
    · rw [heq]
      refine ⟨⟨huv, ?_⟩, hfv, ?_⟩
      · refine unico_actual_map_gen _ _ _ _ (fun s => ?_) hub
        by_cases hs : (s.id == id) = true <;> simp [hs, marcar_baja_respondida]
      · intro s2 hs2
        obtain ⟨t, ht, rfl⟩ := List.mem_map.mp hs2
        by_cases hs : (t.id == id) = true <;>
          simp only [hs, if_true, if_false, Bool.false_eq_true, marcar_baja_respondida] <;>
          exact hfb t ht

/-- The invariant holds along any fold of lifecycle operations. -/
theorem invariante_foldl (ops : List Op) :
    ∀ db : DB, invariante db → invariante (ops.foldl aplicar db) := by
  induction ops with
  | nil => exact fun db h => h
  | cons o t ih => exact fun db h => ih (aplicar db o) (invariante_aplicar db o h)

/-- The empty store satisfies the invariant. -/
theorem invariante_db_vacia : invariante db_vacia := by
  refine ⟨⟨?_, ?_⟩, ?_, ?_⟩ <;> intro s hs <;> simp [db_vacia] at hs

/-- C6: every lifecycle operation (submit of either category, cancel,
respond of either category) preserves the invariant that each group with
a stored row has exactly one current row, and after any sequence of
lifecycle operations from the empty store the property holds. -/
theorem versionado_un_actual_por_grupo :
    (∀ (db : DB) (op : Op), invariante db → invariante (aplicar db op))
  ∧ (∀ ops : List Op, unico_actual (ops.foldl aplicar db_vacia)) :=
  ⟨invariante_aplicar,
    fun ops => (invariante_foldl ops db_vacia invariante_db_vacia).1⟩

/-- Closed instance of the versioning-invariant theorem: one respond step
from the example store, and one submit sequence from the empty store. -/
theorem versionado_un_actual_por_grupo_witness :
    invariante (aplicar db_responder (Op.responderVac u_jefa 1 "aprobar" 10))
  ∧ unico_actual
      ([Op.solicitarVac u_saldo_corto none 738552 738556 none 0].foldl aplicar db_vacia) :=
  ⟨versionado_un_actual_por_grupo.1 db_responder (Op.responderVac u_jefa 1 "aprobar" 10)
      (by unfold invariante unico_actual grupos_frescos; decide),
    versionado_un_actual_por_grupo.2 [Op.solicitarVac u_saldo_corto none 738552 738556 none 0]⟩

end Tempus
